import Mathlib

/-!
Verification of the dpgo_ros coordination layer (PGOAgentROS.cpp).

This file gives a shallow embedding of the per-robot coordination state
machine of the dpgo_ros package: the fields of PGOAgentROS that the
coordination protocol manipulates, the message types it exchanges, and the
handlers commandCallback, statusCallback, publicPosesCallback,
measurementWeightsCallback, runOnceSynchronous, checkTimeout,
checkDisconnectedRobot, requestPoseGraph and reset, translated from
PGOAgentROS.cpp.

External collaborators (the DPGO local solver of the PGOAgent base class,
ROS time, the pose-graph data service, random scheduling choices) are
modelled as explicit oracle inputs; every call into them made by the
coordination code is recorded in an event trace, together with every
published message and every wall-clock timer reset, so that theorems can
speak about what the handlers publish and invoke as well as about the
state they leave behind.
-/

namespace DpgoRos

/-- Agent state machine states (DPGO PGOAgentState). -/
inductive PGOAgentState where
  | WAIT_FOR_DATA
  | WAIT_FOR_INITIALIZATION
  | INITIALIZED
deriving DecidableEq, Repr

/-- The command kinds of dpgo_ros/Command.msg. -/
inductive CommandKind where
  | REQUEST_POSE_GRAPH
  | TERMINATE
  | HARD_TERMINATE
  | INITIALIZE
  | UPDATE
  | RECOVER
  | UPDATE_WEIGHT
  | SET_ACTIVE_ROBOTS
  | NOOP
deriving DecidableEq, Repr

/-- A Command message (dpgo_ros/Command.msg); the header timestamp is not
part of the coordination state and is omitted. -/
structure CommandMsg where
  command : CommandKind
  cluster_id : Nat
  publishing_robot : Nat
  executing_robot : Nat
  executing_iteration : Nat
  active_robots : List Nat
deriving DecidableEq, Repr

/-- A Status message (dpgo_ros/Status.msg); `stamp` models the header
timestamp used by the staleness check of statusCallback. -/
structure StatusMsg where
  robot_id : Nat
  cluster_id : Nat
  state : PGOAgentState
  stamp : Nat
deriving DecidableEq, Repr

/-- A PublicPoses (boundary state) message; the pose payload itself is
solver data and is kept abstract, only the identifiers survive. -/
structure PublicPosesMsg where
  robot_id : Nat
  cluster_id : Nat
  destination_robot_id : Nat
  iteration_number : Nat
  is_auxiliary : Bool
  pose_ids : List Nat
deriving DecidableEq, Repr

/-- A relative SE measurement (DPGO RelativeSEMeasurement): the endpoints
(robot, pose) of the constraint, its robust weight and the fixed flag. -/
structure Meas where
  r1 : Nat
  p1 : Nat
  r2 : Nat
  p2 : Nat
  weight : Rat
  fixedWeight : Bool
deriving DecidableEq, Repr

/-- One (src, dst, weight, fixed) record of a RelativeMeasurementWeights
message; the C++ message carries these as parallel arrays. -/
structure WeightEntry where
  src_robot : Nat
  src_pose : Nat
  dst_robot : Nat
  dst_pose : Nat
  weight : Rat
  fixed : Bool
deriving DecidableEq, Repr

/-- A RelativeMeasurementWeights message. -/
structure WeightsMsg where
  robot_id : Nat
  cluster_id : Nat
  destination_robot_id : Nat
  entries : List WeightEntry
deriving DecidableEq, Repr

/-- The per-robot status record kept by the base class (DPGO AgentStatus),
as far as the coordination layer reads it. -/
structure StatusRecord where
  agentID : Nat
  state : PGOAgentState
deriving DecidableEq, Repr

/-- The configuration parameters of PGOAgentROS read by the coordination
code (PGOAgentParameters and PGOAgentROSParameters). -/
structure Params where
  numRobots : Nat
  asynchronous : Bool
  acceleration : Bool
  maxDelayedIterations : Nat
  timeoutThreshold : Int
  enableRecovery : Bool
  maxDistributedInitSteps : Nat
  completeReset : Bool
  synchronizeMeasurements : Bool
  robustCostGNC : Bool
  weightConvergenceThreshold : Rat
deriving DecidableEq, Repr

/-- Modelled from the spec: the solver-owned part of the agent state
(PGOAgent base class, external to this repository). Section 3 of the spec
records that AgentState is reset to WaitForData, and the iteration counter
to 0, by reset(); the coordination code additionally writes
mIterationNumber directly in the RECOVER handler. -/
structure SolverCore where
  state : PGOAgentState
  iterationNumber : Nat
deriving DecidableEq, Repr

/-- The local pose graph, as far as the coordination layer inspects it:
its list of measurements. -/
structure PoseGraphM where
  measurements : List Meas
deriving DecidableEq, Repr

/-- An odometry edge connects consecutive poses of one robot. -/
def Meas.isOdom (m : Meas) : Bool := m.r1 == m.r2 && m.p2 == m.p1 + 1

/-- A shared (inter-robot) measurement. -/
def Meas.isShared (m : Meas) : Bool := !(m.r1 == m.r2)

/-- sharedLoopClosures() of the pose graph. -/
def PoseGraphM.sharedLoopClosures (g : PoseGraphM) : List Meas :=
  g.measurements.filter Meas.isShared

/-- The other endpoint of a shared measurement, seen from robot selfId. -/
def otherEnd (selfId : Nat) (m : Meas) : Nat :=
  if m.r1 == selfId then m.r2 else m.r1

/-- The coordination state of one PGOAgentROS robot. Wall-clock fields
(mLastCommandTime, mLastUpdateTime, mLastResetTime) are external time and
are modelled through the event trace and through explicit elapsed-time
inputs to checkTimeout; only the presence bit of the optional
mLastUpdateTime is state. Logging-only fields are omitted. -/
structure Agent where
  id : Nat
  params : Params
  clusterID : Nat
  core : SolverCore
  teamIterRequired : Nat → Nat
  teamIterReceived : Nat → Nat
  teamReceivedSharedLoopClosures : Nat → Bool
  teamConnected : Nat → Bool
  teamClusterID : Nat → Nat
  activeRobots : Nat → Bool
  teamStatus : Nat → Option StatusRecord
  teamStatusMsg : Nat → Option StatusMsg
  mSynchronousOptimizationRequested : Bool
  mTryInitializeRequested : Bool
  mPublishInitializeCommandRequested : Bool
  mInitStepsDone : Nat
  mTotalBytesReceived : Nat
  mLastUpdateTimeHasValue : Bool
  poseGraph : PoseGraphM
  cachedPosesPresent : Bool
  cachedMarkersPresent : Bool

/-- isLeader(): the robot whose ID equals its current cluster ID. -/
def isLeader (a : Agent) : Bool := a.id == a.clusterID

/-- isRobotConnected(): out-of-range ids are disconnected, the robot
itself is always connected, others follow the connectivity feed. -/
def isRobotConnected (a : Agent) (r : Nat) : Bool :=
  if a.params.numRobots ≤ r then false
  else if r == a.id then true
  else a.teamConnected r

/-- isRobotActive() of the base class, over the active set. -/
def isRobotActive (a : Agent) (r : Nat) : Bool := a.activeRobots r

/-- setRobotActive() of the base class. -/
def setRobotActive (a : Agent) (r : Nat) (b : Bool) : Agent :=
  { a with activeRobots := fun x => if x == r then b else a.activeRobots x }

/-- numActiveRobots(). -/
def numActiveRobots (a : Agent) : Nat :=
  (List.range a.params.numRobots).countP fun r => a.activeRobots r

/-- Modelled from the spec: isRobotInitialized() of the external base
class reads the solver status feed (the robot itself answers from its own
AgentState, others from their last recorded status). -/
def isRobotInitialized (a : Agent) (r : Nat) : Bool :=
  if r == a.id then a.core.state == .INITIALIZED
  else
    match a.teamStatus r with
    | some s => s.state == .INITIALIZED
    | none => false

/-- getNeighbors(): the robots sharing a measurement with this robot. -/
def getNeighbors (a : Agent) : List Nat :=
  ((a.poseGraph.sharedLoopClosures).map (otherEnd a.id)).dedup

/-- activeNeighborIDs(): neighbors restricted to the active set. -/
def activeNeighborIDs (a : Agent) : List Nat :=
  (getNeighbors a).filter fun r => a.activeRobots r

/-- setRobotClusterID(): bounds-checked write of the per-robot cluster
bookkeeping (the source checks with a strict greater-than). -/
def setRobotClusterID (a : Agent) (robot : Nat) (cluster : Nat) : Agent :=
  if a.params.numRobots < robot then a
  else if a.params.numRobots < cluster then a
  else { a with teamClusterID := fun x => if x == robot then cluster else a.teamClusterID x }

/-- resetRobotClusterIDs(): every robot is assumed to sit in its own
singleton cluster. -/
def resetRobotClusterIDs (a : Agent) : Agent :=
  { a with teamClusterID := fun r => r }

/-- updateActiveRobots(msg): overwrite the active set from the robot list
of a command, for every id below the team size. -/
def updateActiveRobots (a : Agent) (act : List Nat) : Agent :=
  { a with activeRobots := fun r =>
      if r < a.params.numRobots then act.contains r else a.activeRobots r }

/-- PGOAgentROS::reset(): the base-class reset (back to WAIT_FOR_DATA,
iteration 0, neighbor status records dropped - modelled from the spec, the
base class is external), then the coordination bookkeeping is cleared, the
pose graph and caches are dropped when completeReset is set, and the
per-robot cluster ids are re-derived. mClusterID itself and the active set
are not touched, and mPublishInitializeCommandRequested is not cleared. -/
def reset (a : Agent) : Agent :=
  { a with
    core := { state := .WAIT_FOR_DATA, iterationNumber := 0 },
    teamStatus := fun _ => none,
    mSynchronousOptimizationRequested := false,
    mTryInitializeRequested := false,
    mInitStepsDone := 0,
    teamIterRequired := fun _ => 0,
    teamIterReceived := fun _ => 0,
    teamReceivedSharedLoopClosures := fun _ => false,
    mTotalBytesReceived := 0,
    teamStatusMsg := fun _ => none,
    poseGraph := if a.params.completeReset then { measurements := [] } else a.poseGraph,
    cachedPosesPresent := if a.params.completeReset then false else a.cachedPosesPresent,
    cachedMarkersPresent := if a.params.completeReset then false else a.cachedMarkersPresent,
    teamClusterID := fun r => r,
    mLastUpdateTimeHasValue := false }

/-- The observable actions of a handler: every published message, every
call into the external solver, and every wall-clock timer write
(mLastCommandTime and mLastUpdateTime live in external time and appear
here as reset events). -/
inductive Ev where
  | pubCommand (c : CommandMsg)
  | pubStatus
  | pubAnchor
  | pubPublicPoses (aux : Bool)
  | pubPublicMeasurements
  | pubLiftingMatrix
  | pubWeights (msgs : List WeightsMsg)
  | pubOptimizedTrajectory
  | pubLoopClosureMarkers
  | iterateCall (withOpt : Bool)
  | updateNeighborPosesCall (robot : Nat) (aux : Bool)
  | setWeightCall (srcRobot srcPose dstRobot dstPose : Nat)
  | clearDataMatricesCall
  | updateMeasurementWeightsCall
  | storeDataCall
  | resetCmdTimer
  | resetUpdTimer
deriving DecidableEq, Repr

/-- The responses of the external collaborators during one handler run:
the solver step, the convergence predicates, the (possibly random)
scheduling choice of publishUpdateCommand(), the robust-weight
recomputation, the GNC residual weights used during TERMINATE, and the
availability bits of anchor/trajectory/marker data. -/
structure Oracle where
  iterate : Bool → SolverCore → SolverCore × Bool
  shouldTerminate : Bool
  shouldUpdateMeasurementWeights : Bool
  nextRobot : Nat
  gncWeights : PoseGraphM → PoseGraphM
  residualWeight : Meas → Option Rat
  globalAnchorAvailable : Bool
  trajectoryAvailable : Bool
  markersAvailable : Bool

/-- The result of the pose-graph data service call made by
requestPoseGraph(): the service may be unavailable, the call may fail, or
it returns a pose graph whose edges are delivered as measurements. -/
inductive SvcResult where
  | unavailable
  | callFailed
  | ok (edges : List Meas)
deriving DecidableEq, Repr

/-- The UPDATE command built by publishUpdateCommand(robot). -/
def updateCommandMsg (a : Agent) (robot : Nat) : CommandMsg :=
  { command := .UPDATE, cluster_id := a.clusterID, publishing_robot := a.id,
    executing_robot := robot, executing_iteration := a.core.iterationNumber + 1,
    active_robots := [] }

/-- The RECOVER command built by publishRecoverCommand(). -/
def recoverCommandMsg (a : Agent) : CommandMsg :=
  { command := .RECOVER, cluster_id := a.clusterID, publishing_robot := a.id,
    executing_robot := 0, executing_iteration := a.core.iterationNumber,
    active_robots := [] }

/-- The TERMINATE command built by publishTerminateCommand(). -/
def terminateCommandMsg (a : Agent) : CommandMsg :=
  { command := .TERMINATE, cluster_id := a.clusterID, publishing_robot := a.id,
    executing_robot := 0, executing_iteration := 0, active_robots := [] }

/-- The HARD_TERMINATE command built by publishHardTerminateCommand(). -/
def hardTerminateCommandMsg (a : Agent) : CommandMsg :=
  { command := .HARD_TERMINATE, cluster_id := a.clusterID, publishing_robot := a.id,
    executing_robot := 0, executing_iteration := 0, active_robots := [] }

/-- The UPDATE_WEIGHT command built by publishUpdateWeightCommand(). -/
def updateWeightCommandMsg (a : Agent) : CommandMsg :=
  { command := .UPDATE_WEIGHT, cluster_id := a.clusterID, publishing_robot := a.id,
    executing_robot := 0, executing_iteration := 0, active_robots := [] }

/-- The INITIALIZE command built by publishInitializeCommand(). -/
def initializeCommandMsg (a : Agent) : CommandMsg :=
  { command := .INITIALIZE, cluster_id := a.clusterID, publishing_robot := a.id,
    executing_robot := 0, executing_iteration := 0, active_robots := [] }

/-- The SET_ACTIVE_ROBOTS command built by publishActiveRobotsCommand(). -/
def activeRobotsCommandMsg (a : Agent) : CommandMsg :=
  { command := .SET_ACTIVE_ROBOTS, cluster_id := a.clusterID, publishing_robot := a.id,
    executing_robot := 0, executing_iteration := 0,
    active_robots := (List.range a.params.numRobots).filter fun r => a.activeRobots r }

/-- publishUpdateCommand(robot): skipped entirely in asynchronous mode and
when the selected robot is not active. -/
def publishUpdateCommandTo (a : Agent) (robot : Nat) : List Ev :=
  if a.params.asynchronous then []
  else if !(isRobotActive a robot) then []
  else [.pubCommand (updateCommandMsg a robot)]

/-- publishAnchor(): only the leader publishes, only when INITIALIZED, and
a leader other than robot 0 needs the cached global anchor. -/
def publishAnchorEvs (O : Oracle) (a : Agent) : List Ev :=
  if !(isLeader a) then []
  else if !(a.core.state == .INITIALIZED) then []
  else if a.id == 0 then [.pubAnchor]
  else if O.globalAnchorAvailable then [.pubAnchor] else []

/-- publishInitializeCommand(): publishes INITIALIZE, counts the
initialization step and clears the deferred request flag. -/
def publishInitializeCommand (a : Agent) : Agent × List Ev :=
  ({ a with mInitStepsDone := a.mInitStepsDone + 1,
            mPublishInitializeCommandRequested := false },
   [.pubCommand (initializeCommandMsg a)])

/-- The RelativeMeasurementWeights message assembled for one destination
robot by publishMeasurementWeights(). -/
def weightsMsgTo (a : Agent) (other : Nat) : WeightsMsg :=
  { robot_id := a.id, cluster_id := a.clusterID, destination_robot_id := other,
    entries := ((a.poseGraph.sharedLoopClosures).filter fun m => otherEnd a.id m == other).map
      fun m => { src_robot := m.r1, src_pose := m.p1, dst_robot := m.r2, dst_pose := m.p2,
                 weight := m.weight, fixed := m.fixedWeight } }

/-- publishMeasurementWeights(): for every shared loop closure whose other
endpoint has a HIGHER id than this robot, the weight is put into the
message destined to that endpoint; empty messages are not published.
Robot ids live below numRobots, and the source iterates the destination
map in ascending key order. -/
def publishMeasurementWeights (a : Agent) : List WeightsMsg :=
  (((List.range a.params.numRobots).filter fun o => a.id < o).map (weightsMsgTo a)).filter
    fun msg => !msg.entries.isEmpty

/-- statusFromMsg(). -/
def statusFromMsg (m : StatusMsg) : StatusRecord :=
  { agentID := m.robot_id, state := m.state }

/-- statusCallback(): drop outdated stamps; record the message and the
sender cluster; record the neighbor status when the clusters agree; in
synchronous mode the leader deactivates an active robot that joined
another cluster or regressed out of INITIALIZED mid-round, and
rebroadcasts the active set. -/
def statusCallback (a : Agent) (msg : StatusMsg) : Agent × List Ev :=
  let stale : Bool := match a.teamStatusMsg msg.robot_id with
    | some latest => decide (msg.stamp < latest.stamp)
    | none => false
  if stale then (a, [])
  else
    let a1 := { a with teamStatusMsg := fun r =>
        if r == msg.robot_id then some msg else a.teamStatusMsg r }
    let a2 := setRobotClusterID a1 msg.robot_id msg.cluster_id
    let a3 := if msg.cluster_id == a.clusterID then
        { a2 with teamStatus := fun r =>
            if r == msg.robot_id then some (statusFromMsg msg) else a2.teamStatus r }
      else a2
    if !a.params.asynchronous && isLeader a3 && isRobotActive a3 msg.robot_id then
      let shouldDeactivate := !(msg.cluster_id == a.clusterID) ||
        (!(a3.core.iterationNumber == 0) && !(msg.state == .INITIALIZED))
      if shouldDeactivate then
        let a4 := setRobotActive a3 msg.robot_id false
        (a4, [.pubCommand (activeRobotsCommandMsg a4)])
      else (a3, [])
    else (a3, [])

/-- publicPosesCallback(): drop messages from other clusters and from
non-neighbors; otherwise hand the poses to the solver and record the
sender iteration and the received bytes (the byte count of the message is
abstracted by its pose count). -/
def publicPosesCallback (a : Agent) (msg : PublicPosesMsg) : Agent × List Ev :=
  if !(msg.cluster_id == a.clusterID) then (a, [])
  else if !((getNeighbors a).contains msg.robot_id) then (a, [])
  else
    ({ a with
        teamIterReceived := fun r =>
          if r == msg.robot_id then msg.iteration_number else a.teamIterReceived r,
        mTotalBytesReceived := a.mTotalBytesReceived + msg.pose_ids.length },
     [.updateNeighborPosesCall msg.robot_id msg.is_auxiliary])

/-- setMeasurementWeight() of the base class: update the measurement with
the given endpoints, report whether it was found. -/
def setMeasurementWeight (g : PoseGraphM) (sR sP dR dP : Nat) (w : Rat) (fixed : Bool) :
    PoseGraphM × Bool :=
  let found := g.measurements.any fun m =>
    m.r1 == sR && m.p1 == sP && m.r2 == dR && m.p2 == dP
  if found then
    ({ measurements := g.measurements.map fun m =>
        if m.r1 == sR && m.p1 == sP && m.r2 == dR && m.p2 == dP then
          { m with weight := w, fixedWeight := fixed }
        else m }, true)
  else (g, false)

/-- The per-entry loop of measurementWeightsCallback(): entries whose
endpoints do not mention this robot exactly once are irrelevant; the other
endpoint must be active; only entries whose other endpoint has a LOWER id
are applied. Returns the pose graph, whether any weight changed, and the
applied setMeasurementWeight calls. -/
def applyWeightEntries (selfId : Nat) (active : Nat → Bool) :
    PoseGraphM → List WeightEntry → PoseGraphM × Bool × List Ev
  | g, [] => (g, false, [])
  | g, e :: rest =>
    let relevant : Option Nat :=
      if e.src_robot == selfId && !(e.dst_robot == selfId) then some e.dst_robot
      else if e.dst_robot == selfId && !(e.src_robot == selfId) then some e.src_robot
      else none
    match relevant with
    | none => applyWeightEntries selfId active g rest
    | some other =>
      if !(active other) then applyWeightEntries selfId active g rest
      else if other < selfId then
        let p := setMeasurementWeight g e.src_robot e.src_pose e.dst_robot e.dst_pose
          e.weight e.fixed
        let q := applyWeightEntries selfId active p.1 rest
        (q.1, (p.2 || q.2.1),
          Ev.setWeightCall e.src_robot e.src_pose e.dst_robot e.dst_pose :: q.2.2)
      else applyWeightEntries selfId active g rest

/-- measurementWeightsCallback(): drop messages not addressed to this
robot or from another cluster; apply the entries; clear the cached data
matrices when any weight changed. -/
def measurementWeightsCallback (a : Agent) (msg : WeightsMsg) : Agent × List Ev :=
  if !(msg.destination_robot_id == a.id) then (a, [])
  else if !(msg.cluster_id == a.clusterID) then (a, [])
  else
    let q := applyWeightEntries a.id (fun r => isRobotActive a r) a.poseGraph msg.entries
    ({ a with poseGraph := q.1 },
     q.2.2 ++ if q.2.1 then [.clearDataMatricesCall] else [])

/-- hasMeasurement() of the pose graph, by endpoint ids. -/
def hasMeasurement (g : PoseGraphM) (m : Meas) : Bool :=
  g.measurements.any fun x => x.r1 == m.r1 && x.p1 == m.p1 && x.r2 == m.r2 && x.p2 == m.p2

/-- The edge-processing loop of requestPoseGraph(): add every edge that is
not yet in the pose graph. -/
def addEdges (g : PoseGraphM) : List Meas → PoseGraphM
  | [] => g
  | e :: rest =>
    addEdges (if hasMeasurement g e then g else { measurements := g.measurements ++ [e] }) rest

/-- requestPoseGraph(): fails without touching the state when the data
service is unavailable, the call fails, or the returned pose graph has at
most one edge; otherwise adds the new edges, primes the shared-measurement
synchronization bits, and requests deferred initialization. The node
block of the source only fills a local variable and is omitted. -/
def requestPoseGraph (a : Agent) (svc : SvcResult) : Agent × Bool :=
  match svc with
  | .unavailable => (a, false)
  | .callFailed => (a, false)
  | .ok edges =>
    if edges.length ≤ 1 then (a, false)
    else
      let a1 := { a with poseGraph := addEdges a.poseGraph edges }
      let a2 := if a.params.synchronizeMeasurements then
          { a1 with teamReceivedSharedLoopClosures := fun r => r == a.id }
        else { a1 with teamReceivedSharedLoopClosures := fun _ => true }
      ({ a2 with mTryInitializeRequested := true }, true)

/-- The status scan of the INITIALIZE handler: over the active robots,
whether all have a recorded status in INITIALIZED state, and how many
INITIALIZED robots were counted. -/
def initScan (a : Agent) : Bool × Nat :=
  (List.range a.params.numRobots).foldl
    (fun acc r =>
      if !(isRobotActive a r) then acc
      else
        match a.teamStatus r with
        | none => (false, acc.2)
        | some s =>
          if s.state == .INITIALIZED then (acc.1, acc.2 + 1) else (false, acc.2))
    (true, 0)

/-- The GNC finalization loop of the TERMINATE handler: every active,
non-fixed loop closure whose residual-based robust weight falls below the
convergence threshold is rejected (weight 0, fixed). -/
def gncFixConverged (O : Oracle) (a : Agent) : PoseGraphM :=
  { measurements := a.poseGraph.measurements.map fun m =>
      if !(m.isOdom) && isRobotActive a m.r1 && isRobotActive a m.r2 && !m.fixedWeight then
        match O.residualWeight m with
        | some w =>
          if w < a.params.weightConvergenceThreshold then
            { m with weight := 0, fixedWeight := true }
          else m
        | none => m
      else m }

/-- commandCallback(): messages from another cluster are dropped before
anything happens; any command other than NOOP and SET_ACTIVE_ROBOTS
refreshes mLastCommandTime; then the command-specific case runs. -/
def commandCallback (O : Oracle) (svc : SvcResult) (a : Agent) (msg : CommandMsg) :
    Agent × List Ev :=
  if !(msg.cluster_id == a.clusterID) then (a, [])
  else
    match msg.command with
    | .REQUEST_POSE_GRAPH =>
      if !(msg.publishing_robot == a.clusterID) then (a, [.resetCmdTimer])
      else
        let a1 := if !(a.core.state == .WAIT_FOR_DATA) then reset a else a
        let a2 := updateActiveRobots a1 msg.active_robots
        let p := requestPoseGraph a2 svc
        let evs0 : List Ev := [.resetCmdTimer, .pubStatus]
        if isLeader p.1 then
          if !p.2 then (p.1, evs0 ++ [.pubCommand (hardTerminateCommandMsg p.1)])
          else
            let q := publishInitializeCommand p.1
            (q.1, evs0 ++ publishAnchorEvs O p.1 ++ q.2)
        else (p.1, evs0)
    | .TERMINATE =>
      if !(isRobotActive a a.id) then (reset a, [.resetCmdTimer])
      else
        let a1 := if a.params.robustCostGNC then { a with poseGraph := gncFixConverged O a } else a
        let gncEvs := if a.params.robustCostGNC then [Ev.pubWeights (publishMeasurementWeights a1)] else []
        let a2 := { a1 with
          cachedPosesPresent := O.trajectoryAvailable || a1.cachedPosesPresent,
          cachedMarkersPresent :=
            (a1.core.state == .INITIALIZED && O.markersAvailable) || a1.cachedMarkersPresent }
        let trajEvs := if isRobotActive a2 a2.id && a2.cachedPosesPresent then [Ev.pubOptimizedTrajectory] else []
        let markerEvs := if a2.cachedMarkersPresent then [Ev.pubLoopClosureMarkers] else []
        (reset a2, [Ev.resetCmdTimer] ++ gncEvs ++ [Ev.storeDataCall] ++ trajEvs ++ markerEvs)
    | .HARD_TERMINATE => (reset a, [.resetCmdTimer])
    | .INITIALIZE =>
      if !(msg.publishing_robot == a.clusterID) then (a, [.resetCmdTimer])
      else
        let evs0 : List Ev := [.resetCmdTimer] ++
          (if a.params.synchronizeMeasurements then [Ev.pubPublicMeasurements] else []) ++
          [.pubPublicPoses false, .pubStatus]
        if isLeader a then
          let evs1 := evs0 ++ [Ev.pubLiftingMatrix, Ev.pubCommand (activeRobotsCommandMsg a)]
          let scan := initScan a
          if !scan.1 && a.mInitStepsDone ≤ a.params.maxDistributedInitSteps then
            ({ a with mPublishInitializeCommandRequested := true }, evs1)
          else
            if 1 < scan.2 then
              let a1 := { a with activeRobots := fun r =>
                  if r < a.params.numRobots then
                    isRobotActive a r && isRobotInitialized a r && isRobotConnected a r
                  else a.activeRobots r }
              (a1, evs1 ++ [Ev.pubCommand (activeRobotsCommandMsg a1)] ++ publishUpdateCommandTo a1 a.id)
            else (a, evs1 ++ [Ev.pubCommand (hardTerminateCommandMsg a)])
        else (a, evs0)
    | .UPDATE =>
      if !(isRobotActive a a.id) then (a, [.resetCmdTimer])
      else if !(a.core.state == .INITIALIZED) then (a, [.resetCmdTimer])
      else
        let a1 := { a with teamIterRequired := fun r =>
            if r == msg.executing_robot then msg.executing_iteration else a.teamIterRequired r }
        if msg.executing_robot == a.id then
          ({ a1 with mSynchronousOptimizationRequested := true }, [.resetCmdTimer])
        else
          let p := O.iterate false a1.core
          ({ a1 with core := p.1 }, [.resetCmdTimer, .iterateCall false, .pubStatus])
    | .RECOVER =>
      if !(isRobotActive a a.id) || !(a.core.state == .INITIALIZED) then (a, [.resetCmdTimer])
      else
        let nbrs := getNeighbors a
        let a1 := { a with
          core := { a.core with iterationNumber := msg.executing_iteration },
          mSynchronousOptimizationRequested := false,
          teamIterRequired := fun r =>
            if nbrs.contains r then msg.executing_iteration else a.teamIterRequired r,
          teamIterReceived := fun r =>
            if nbrs.contains r then 0 else a.teamIterReceived r }
        if isLeader a1 then (a1, [Ev.resetCmdTimer] ++ publishUpdateCommandTo a1 a1.id)
        else (a1, [.resetCmdTimer])
    | .UPDATE_WEIGHT =>
      if !(isRobotActive a a.id) then (a, [.resetCmdTimer])
      else
        let a1 := { a with poseGraph := O.gncWeights a.poseGraph }
        let nbrs := getNeighbors a1
        let a2 := { a1 with teamIterRequired := fun r =>
            if nbrs.contains r then a1.core.iterationNumber else a1.teamIterRequired r }
        let evs := [Ev.resetCmdTimer, Ev.updateMeasurementWeightsCall,
            Ev.pubWeights (publishMeasurementWeights a2), Ev.pubPublicPoses false] ++
          (if a2.params.acceleration then [Ev.pubPublicPoses true] else []) ++ [Ev.pubStatus]
        if isLeader a2 then (a2, evs ++ publishUpdateCommandTo a2 O.nextRobot)
        else (a2, evs)
    | .SET_ACTIVE_ROBOTS =>
      if !(msg.publishing_robot == a.clusterID) then (a, [])
      else (updateActiveRobots a msg.active_robots, [])
    | .NOOP => (a, [])

/-- The synchronization-barrier bound of runOnceSynchronous(): the
iteration required from a neighbor, with acceleration overriding the
recorded requirement by the local iteration plus one, and the staleness
slack subtracted (the source computes this over int). -/
def requiredIter (a : Agent) (nb : Nat) : Int :=
  (if a.params.acceleration then (a.core.iterationNumber : Int) + 1
   else (a.teamIterRequired nb : Int)) - (a.params.maxDelayedIterations : Int)

/-- The barrier check of runOnceSynchronous() over all active neighbors. -/
def syncReady (a : Agent) : Bool :=
  (activeNeighborIDs a).all fun nb => !((a.teamIterReceived nb : Int) < requiredIter a nb)

/-- runOnceSynchronous(): when the armed step request is present, perform
the solver step only if the barrier is clear - otherwise defer, leaving the
request armed and the state untouched. A successful step refreshes
mLastUpdateTime; the leader then publishes the anchor; status is
published; the leader decides between TERMINATE, UPDATE_WEIGHT and the
next UPDATE, a follower always publishes the next UPDATE. -/
def runOnceSynchronous (O : Oracle) (a : Agent) : Agent × List Ev :=
  if !a.mSynchronousOptimizationRequested then (a, [])
  else if !(syncReady a) then (a, [])
  else
    let p := O.iterate true a.core
    let a1 := { a with
      core := p.1,
      mSynchronousOptimizationRequested := false,
      mLastUpdateTimeHasValue := p.2 || a.mLastUpdateTimeHasValue }
    let evs0 := [Ev.iterateCall true] ++ (if p.2 then [Ev.resetUpdTimer] else []) ++
      publishAnchorEvs O a1 ++ [Ev.pubStatus]
    let tailEvs :=
      if isLeader a1 then
        if O.shouldTerminate then [Ev.pubCommand (terminateCommandMsg a1)]
        else if O.shouldUpdateMeasurementWeights then [Ev.pubCommand (updateWeightCommandMsg a1)]
        else publishUpdateCommandTo a1 O.nextRobot
      else publishUpdateCommandTo a1 O.nextRobot
    (a1, evs0 ++ tailEvs)

/-- checkDisconnectedRobot(): deactivate every active robot that is no
longer connected; report whether any was. -/
def checkDisconnectedRobot (a : Agent) : Agent × Bool :=
  ({ a with activeRobots := fun r =>
      if r < a.params.numRobots && a.activeRobots r && !(isRobotConnected a r) then false
      else a.activeRobots r },
   (List.range a.params.numRobots).any fun r => a.activeRobots r && !(isRobotConnected a r))

/-- checkTimeout(): synchronous mode only. elapsedCmd is the seconds since
mLastCommandTime, idle the seconds since mLastUpdateTime (meaningful only
when mLastUpdateTimeHasValue). Command-channel silence beyond the
threshold triggers, mid-round, the leader recovery path (deactivate
disconnected robots, rebroadcast the active set if any was deactivated,
then RECOVER or HARD_TERMINATE) or a follower reset when cut off from its
leader; outside a round it resets and the leader hard-terminates. The
silence branch always rewrites mLastCommandTime. Independently, a
mid-round hard stall beyond three thresholds hard-terminates (leader) and
resets. -/
def checkTimeout (a : Agent) (elapsedCmd : Int) (idle : Int) : Agent × List Ev :=
  if a.params.asynchronous then (a, [])
  else
    let p :=
      if a.params.timeoutThreshold < elapsedCmd then
        let q :=
          if a.core.state == .INITIALIZED && !(a.core.iterationNumber == 0) then
            if isLeader a then
              let r := checkDisconnectedRobot a
              let evsA := if r.2 then [Ev.pubCommand (activeRobotsCommandMsg r.1)] else []
              if 1 < numActiveRobots r.1 then
                if a.params.enableRecovery then
                  (r.1, evsA ++ [Ev.pubCommand (recoverCommandMsg r.1)])
                else (r.1, evsA ++ [Ev.pubCommand (hardTerminateCommandMsg r.1)])
              else (r.1, evsA ++ [Ev.pubCommand (hardTerminateCommandMsg r.1)])
            else
              if !(isRobotConnected a a.clusterID) then (reset a, []) else (a, [])
          else
            let aR := reset a
            (aR, if isLeader aR then [Ev.pubCommand (hardTerminateCommandMsg aR)] else [])
        (q.1, q.2 ++ [Ev.resetCmdTimer])
      else (a, ([] : List Ev))
    if p.1.core.state == .INITIALIZED && !(p.1.core.iterationNumber == 0) then
      if p.1.mLastUpdateTimeHasValue && decide (3 * a.params.timeoutThreshold < idle) then
        (reset p.1, p.2 ++ (if isLeader p.1 then [Ev.pubCommand (hardTerminateCommandMsg p.1)] else []))
      else p
    else p

/-- Leadership only depends on the id and the own cluster id, which
reset() never touches. -/
theorem isLeader_reset (a : Agent) : isLeader (reset a) = isLeader a := rfl

/-- Leadership is unaffected by overwriting the active set. -/
theorem isLeader_updateActiveRobots (a : Agent) (l : List Nat) :
    isLeader (updateActiveRobots a l) = isLeader a := rfl

/-- The number of UPDATE commands of a given kind in a trace. -/
def countCmd (evs : List Ev) (k : CommandKind) : Nat :=
  evs.countP fun e => match e with
    | .pubCommand c => c.command == k
    | _ => false

/-- A typical parameter block used by the concrete witnesses below:
3 robots, synchronous mode, no acceleration, strict barrier. -/
def baseParams : Params :=
  { numRobots := 3, asynchronous := false, acceleration := false,
    maxDelayedIterations := 0, timeoutThreshold := 10, enableRecovery := true,
    maxDistributedInitSteps := 2, completeReset := false,
    synchronizeMeasurements := true, robustCostGNC := false,
    weightConvergenceThreshold := 1/2 }

/-- A concrete agent: robot 0 leading cluster 0, mid-round. -/
def baseAgent : Agent :=
  { id := 0, params := baseParams, clusterID := 0,
    core := { state := .INITIALIZED, iterationNumber := 1 },
    teamIterRequired := fun _ => 0, teamIterReceived := fun _ => 0,
    teamReceivedSharedLoopClosures := fun _ => false,
    teamConnected := fun _ => true, teamClusterID := fun r => r,
    activeRobots := fun _ => true, teamStatus := fun _ => none,
    teamStatusMsg := fun _ => none,
    mSynchronousOptimizationRequested := false, mTryInitializeRequested := false,
    mPublishInitializeCommandRequested := false, mInitStepsDone := 0,
    mTotalBytesReceived := 0, mLastUpdateTimeHasValue := false,
    poseGraph := { measurements := [] }, cachedPosesPresent := false,
    cachedMarkersPresent := false }

/-- An oracle whose solver step succeeds without moving the solver state,
used to instantiate the oracle-parametric theorems on concrete inputs. -/
def idOracle : Oracle :=
  { iterate := fun _ c => (c, true), shouldTerminate := false,
    shouldUpdateMeasurementWeights := false, nextRobot := 0,
    gncWeights := fun g => g, residualWeight := fun _ => none,
    globalAnchorAvailable := true, trajectoryAvailable := false,
    markersAvailable := false }

/-- C9: reset() is idempotent: calling it twice in succession from any
state leaves exactly the state of calling it once. -/
theorem reset_idempotent (a : Agent) : reset (reset a) = reset a := by
  cases h : a.params.completeReset <;> simp [reset, h]

/-- C10: requestPoseGraph leaves the agent untouched and reports failure -
in particular the deferred-initialization request is not raised - whenever
the data service is unavailable, the service call fails, or the returned
pose graph has at most one edge (so a one-edge graph behaves exactly like
an empty one); and the leader handling REQUEST_POSE_GRAPH on such a
failure publishes HARD_TERMINATE and never INITIALIZE. -/
theorem requestPoseGraph_failure (O : Oracle) (a : Agent) (svc : SvcResult) (msg : CommandMsg)
    (hbad : svc = .unavailable ∨ svc = .callFailed ∨ ∃ es, svc = .ok es ∧ es.length ≤ 1)
    (hcmd : msg.command = .REQUEST_POSE_GRAPH)
    (hcl : msg.cluster_id = a.clusterID)
    (hpub : msg.publishing_robot = a.clusterID)
    (hld : isLeader a = true) :
    requestPoseGraph a svc = (a, false) ∧
    countCmd (commandCallback O svc a msg).2 .HARD_TERMINATE = 1 ∧
    countCmd (commandCallback O svc a msg).2 .INITIALIZE = 0 := by
  have hrpg : ∀ a0 : Agent, requestPoseGraph a0 svc = (a0, false) := by
    intro a0
    rcases hbad with h | h | ⟨es, h, hlen⟩
    · subst h; rfl
    · subst h; rfl
    · subst h; simp [requestPoseGraph, hlen]
  refine ⟨hrpg a, ?_, ?_⟩ <;>
    simp [commandCallback, hcmd, hcl, hpub, hrpg, countCmd, hardTerminateCommandMsg,
      isLeader_updateActiveRobots, apply_ite isLeader, isLeader_reset, hld]

/-- C10 witness: an unavailable service at a concrete leader agent. -/
def c10msg : CommandMsg :=
  { command := .REQUEST_POSE_GRAPH, cluster_id := 0, publishing_robot := 0,
    executing_robot := 0, executing_iteration := 0, active_robots := [0, 1, 2] }

theorem requestPoseGraph_failure_witness :
    requestPoseGraph baseAgent .unavailable = (baseAgent, false) ∧
    countCmd (commandCallback idOracle .unavailable baseAgent c10msg).2 .HARD_TERMINATE = 1 ∧
    countCmd (commandCallback idOracle .unavailable baseAgent c10msg).2 .INITIALIZE = 0 :=
  requestPoseGraph_failure idOracle baseAgent .unavailable c10msg (Or.inl rfl) rfl rfl rfl rfl

/-- C2: in synchronous mode, whenever the control loop actually performs
the armed solver step, every active neighbor nb satisfies
TeamIterReceived[nb] at or above requiredIter nb (which is localIteration
plus one under acceleration and TeamIterRequired[nb] otherwise, minus
maxDelayedIterations); and if any active neighbor fails the check, the
step is deferred: no solver call, no event, the state including the armed
request bit untouched, so it is re-attempted on the next tick. -/
theorem sync_barrier (O : Oracle) (a : Agent)
    (hsync : a.params.asynchronous = false) :
    ((Ev.iterateCall true ∈ (runOnceSynchronous O a).2) →
      ∀ nb ∈ activeNeighborIDs a, requiredIter a nb ≤ (a.teamIterReceived nb : Int)) ∧
    ((a.mSynchronousOptimizationRequested = true ∧
      ∃ nb ∈ activeNeighborIDs a, (a.teamIterReceived nb : Int) < requiredIter a nb) →
      runOnceSynchronous O a = (a, [])) := by
  have hready : syncReady a = true ↔
      ∀ nb ∈ activeNeighborIDs a, requiredIter a nb ≤ (a.teamIterReceived nb : Int) := by
    simp [syncReady, List.all_eq_true, not_lt]
  constructor
  · intro hmem
    cases hreq : a.mSynchronousOptimizationRequested
    · simp [runOnceSynchronous, hreq] at hmem
    · cases hrdy : syncReady a
      · simp [runOnceSynchronous, hreq, hrdy] at hmem
      · exact hready.mp hrdy
  · rintro ⟨hreq, nb, hnb, hlt⟩
    have hrdyF : syncReady a = false := by
      cases hrdy : syncReady a
      · rfl
      · exact absurd (hready.mp hrdy nb hnb) (not_le.mpr hlt)
    simp [runOnceSynchronous, hreq, hrdyF]

theorem sync_barrier_witness :
    ((Ev.iterateCall true ∈ (runOnceSynchronous idOracle baseAgent).2) →
      ∀ nb ∈ activeNeighborIDs baseAgent,
        requiredIter baseAgent nb ≤ (baseAgent.teamIterReceived nb : Int)) ∧
    ((baseAgent.mSynchronousOptimizationRequested = true ∧
      ∃ nb ∈ activeNeighborIDs baseAgent,
        (baseAgent.teamIterReceived nb : Int) < requiredIter baseAgent nb) →
      runOnceSynchronous idOracle baseAgent = (baseAgent, [])) :=
  sync_barrier idOracle baseAgent rfl

/-- C3: an active INITIALIZED receiver of RECOVER sets its iteration
counter to the carried executing_iteration, clears the armed
synchronous-step request, and for every neighbor overwrites
TeamIterRequired with the new current iteration and TeamIterReceived with
0 whatever their prior values (non-neighbors keep theirs); an inactive or
uninitialized receiver keeps its whole state (only the command timer is
refreshed); a leader additionally re-issues UPDATE naming itself. -/
theorem recover_command (O : Oracle) (svc : SvcResult) (a : Agent) (msg : CommandMsg)
    (hcmd : msg.command = .RECOVER)
    (hcl : msg.cluster_id = a.clusterID)
    (hsync : a.params.asynchronous = false) :
    ((isRobotActive a a.id = true ∧ a.core.state = .INITIALIZED) →
      (commandCallback O svc a msg).1.core.iterationNumber = msg.executing_iteration ∧
      (commandCallback O svc a msg).1.mSynchronousOptimizationRequested = false ∧
      (∀ nb ∈ getNeighbors a,
        (commandCallback O svc a msg).1.teamIterRequired nb = msg.executing_iteration ∧
        (commandCallback O svc a msg).1.teamIterReceived nb = 0) ∧
      (∀ r, r ∉ getNeighbors a →
        (commandCallback O svc a msg).1.teamIterRequired r = a.teamIterRequired r ∧
        (commandCallback O svc a msg).1.teamIterReceived r = a.teamIterReceived r) ∧
      (isLeader a = true →
        Ev.pubCommand (updateCommandMsg (commandCallback O svc a msg).1 a.id) ∈
          (commandCallback O svc a msg).2)) ∧
    (¬(isRobotActive a a.id = true ∧ a.core.state = .INITIALIZED) →
      commandCallback O svc a msg = (a, [Ev.resetCmdTimer])) := by
  constructor
  · rintro ⟨hact, hst⟩
    have hact2 : a.activeRobots a.id = true := hact
    have hguard : (!(isRobotActive a a.id) || !(a.core.state == PGOAgentState.INITIALIZED)) = false := by
      simp [hact, hst]
    refine ⟨?_, ?_, ?_, ?_, ?_⟩
    · cases hld2 : (a.id == a.clusterID) <;>
        simp [commandCallback, hcmd, hcl, hguard, isLeader, hld2]
    · cases hld2 : (a.id == a.clusterID) <;>
        simp [commandCallback, hcmd, hcl, hguard, isLeader, hld2]
    · intro nb hnb
      cases hld2 : (a.id == a.clusterID) <;>
        simp [commandCallback, hcmd, hcl, hguard, isLeader, hld2, hnb]
    · intro r hnr
      cases hld2 : (a.id == a.clusterID) <;>
        simp [commandCallback, hcmd, hcl, hguard, isLeader, hld2, hnr]
    · intro hld
      have hld2 : (a.id == a.clusterID) = true := by simpa [isLeader] using hld
      have hldeq : a.id = a.clusterID := by simpa using hld2
      have hact3 : a.activeRobots a.clusterID = true := by rw [← hldeq]; exact hact2
      simp [commandCallback, hcmd, hcl, hguard, isLeader, hld2, publishUpdateCommandTo,
        isRobotActive, hsync, hact2, hact3, hldeq, hst]
  · intro hneg
    have hguard : (!(isRobotActive a a.id) || !(a.core.state == PGOAgentState.INITIALIZED)) = true := by
      by_cases h : isRobotActive a a.id = true
      · have h2 : a.core.state ≠ PGOAgentState.INITIALIZED := fun hs => hneg ⟨h, hs⟩
        simp [h, h2]
      · simp only [Bool.not_eq_true] at h
        simp [h]
    simp [commandCallback, hcmd, hcl, hguard]

/-- A concrete leader mid-round with robot 1 as neighbor, armed step
request pending and nonzero team bookkeeping, used to witness the
command-handler theorems on nontrivial prior values. -/
def nbAgent : Agent :=
  { baseAgent with
    mSynchronousOptimizationRequested := true,
    teamIterRequired := fun _ => 7,
    teamIterReceived := fun _ => 4,
    poseGraph := { measurements := [{ r1 := 0, p1 := 0, r2 := 1, p2 := 0,
                                      weight := 1, fixedWeight := false }] } }

def recoverMsg5 : CommandMsg :=
  { command := .RECOVER, cluster_id := 0, publishing_robot := 0,
    executing_robot := 0, executing_iteration := 5, active_robots := [] }

theorem recover_command_witness :
    ((isRobotActive nbAgent nbAgent.id = true ∧ nbAgent.core.state = .INITIALIZED) →
      (commandCallback idOracle .unavailable nbAgent recoverMsg5).1.core.iterationNumber =
        recoverMsg5.executing_iteration ∧
      (commandCallback idOracle .unavailable nbAgent recoverMsg5).1.mSynchronousOptimizationRequested = false ∧
      (∀ nb ∈ getNeighbors nbAgent,
        (commandCallback idOracle .unavailable nbAgent recoverMsg5).1.teamIterRequired nb =
          recoverMsg5.executing_iteration ∧
        (commandCallback idOracle .unavailable nbAgent recoverMsg5).1.teamIterReceived nb = 0) ∧
      (∀ r, r ∉ getNeighbors nbAgent →
        (commandCallback idOracle .unavailable nbAgent recoverMsg5).1.teamIterRequired r =
          nbAgent.teamIterRequired r ∧
        (commandCallback idOracle .unavailable nbAgent recoverMsg5).1.teamIterReceived r =
          nbAgent.teamIterReceived r) ∧
      (isLeader nbAgent = true →
        Ev.pubCommand (updateCommandMsg (commandCallback idOracle .unavailable nbAgent recoverMsg5).1
            nbAgent.id) ∈
          (commandCallback idOracle .unavailable nbAgent recoverMsg5).2)) ∧
    (¬(isRobotActive nbAgent nbAgent.id = true ∧ nbAgent.core.state = .INITIALIZED) →
      commandCallback idOracle .unavailable nbAgent recoverMsg5 = (nbAgent, [Ev.resetCmdTimer])) :=
  recover_command idOracle .unavailable nbAgent recoverMsg5 rfl rfl rfl

/-- C4: an active INITIALIZED receiver of UPDATE records
TeamIterRequired[executing_robot] = executing_iteration; exactly when it
is the named executor it arms the deferred synchronous-step request and
performs no immediate solver call; any other active INITIALIZED receiver
immediately performs an unscheduled solver step and re-broadcasts its
status, leaving the armed bit as it was; an inactive or uninitialized
receiver keeps its whole state (only the command timer is refreshed). -/
theorem update_command (O : Oracle) (svc : SvcResult) (a : Agent) (msg : CommandMsg)
    (hcmd : msg.command = .UPDATE)
    (hcl : msg.cluster_id = a.clusterID)
    (hsync : a.params.asynchronous = false) :
    ((isRobotActive a a.id = true ∧ a.core.state = .INITIALIZED) →
      (commandCallback O svc a msg).1.teamIterRequired msg.executing_robot =
        msg.executing_iteration ∧
      (msg.executing_robot = a.id →
        (commandCallback O svc a msg).1.mSynchronousOptimizationRequested = true ∧
        ∀ b, Ev.iterateCall b ∉ (commandCallback O svc a msg).2) ∧
      (msg.executing_robot ≠ a.id →
        Ev.iterateCall false ∈ (commandCallback O svc a msg).2 ∧
        Ev.pubStatus ∈ (commandCallback O svc a msg).2 ∧
        (commandCallback O svc a msg).1.mSynchronousOptimizationRequested =
          a.mSynchronousOptimizationRequested)) ∧
    (¬(isRobotActive a a.id = true ∧ a.core.state = .INITIALIZED) →
      commandCallback O svc a msg = (a, [Ev.resetCmdTimer])) := by
  constructor
  · rintro ⟨hact, hst⟩
    refine ⟨?_, ?_, ?_⟩
    · cases hex : (msg.executing_robot == a.id) <;>
        simp [commandCallback, hcmd, hcl, hact, hst, hex]
    · intro hexeq
      have hex : (msg.executing_robot == a.id) = true := by simpa using hexeq
      simp [commandCallback, hcmd, hcl, hact, hst, hex]
    · intro hexne
      have hex : (msg.executing_robot == a.id) = false := by simpa using hexne
      simp [commandCallback, hcmd, hcl, hact, hst, hex]
  · intro hneg
    by_cases h : isRobotActive a a.id = true
    · have h2 : a.core.state ≠ PGOAgentState.INITIALIZED := fun hs => hneg ⟨h, hs⟩
      simp [commandCallback, hcmd, hcl, h, h2]
    · simp only [Bool.not_eq_true] at h
      simp [commandCallback, hcmd, hcl, h]

def updateMsg2 : CommandMsg :=
  { command := .UPDATE, cluster_id := 0, publishing_robot := 0,
    executing_robot := 1, executing_iteration := 2, active_robots := [] }

theorem update_command_witness :
    ((isRobotActive nbAgent nbAgent.id = true ∧ nbAgent.core.state = .INITIALIZED) →
      (commandCallback idOracle .unavailable nbAgent updateMsg2).1.teamIterRequired
          updateMsg2.executing_robot = updateMsg2.executing_iteration ∧
      (updateMsg2.executing_robot = nbAgent.id →
        (commandCallback idOracle .unavailable nbAgent updateMsg2).1.mSynchronousOptimizationRequested = true ∧
        ∀ b, Ev.iterateCall b ∉ (commandCallback idOracle .unavailable nbAgent updateMsg2).2) ∧
      (updateMsg2.executing_robot ≠ nbAgent.id →
        Ev.iterateCall false ∈ (commandCallback idOracle .unavailable nbAgent updateMsg2).2 ∧
        Ev.pubStatus ∈ (commandCallback idOracle .unavailable nbAgent updateMsg2).2 ∧
        (commandCallback idOracle .unavailable nbAgent updateMsg2).1.mSynchronousOptimizationRequested =
          nbAgent.mSynchronousOptimizationRequested)) ∧
    (¬(isRobotActive nbAgent nbAgent.id = true ∧ nbAgent.core.state = .INITIALIZED) →
      commandCallback idOracle .unavailable nbAgent updateMsg2 = (nbAgent, [Ev.resetCmdTimer])) :=
  update_command idOracle .unavailable nbAgent updateMsg2 rfl rfl rfl

/-- C1 (amended): Command, BoundaryState (public poses) and WeightUpdate
messages tagged with a cluster id different from the receiver's current
ClusterID are complete no-ops: state unchanged, nothing published, no
solver call, no timer write. Status messages are the exception (see the
counterexample): they always update the status cache and the per-robot
cluster bookkeeping, and may make the leader deactivate the sender. -/
theorem cluster_admission (O : Oracle) (svc : SvcResult) (a : Agent)
    (cm : CommandMsg) (pm : PublicPosesMsg) (wm : WeightsMsg)
    (hc : cm.cluster_id ≠ a.clusterID)
    (hp : pm.cluster_id ≠ a.clusterID)
    (hw : wm.cluster_id ≠ a.clusterID) :
    commandCallback O svc a cm = (a, []) ∧
    publicPosesCallback a pm = (a, []) ∧
    measurementWeightsCallback a wm = (a, []) := by
  refine ⟨?_, ?_, ?_⟩
  · simp [commandCallback, hc]
  · simp [publicPosesCallback, hp]
  · by_cases hd : wm.destination_robot_id = a.id
    · simp [measurementWeightsCallback, hd, hw]
    · simp [measurementWeightsCallback, hd]

def c1cmd : CommandMsg :=
  { command := .UPDATE, cluster_id := 5, publishing_robot := 2,
    executing_robot := 0, executing_iteration := 0, active_robots := [] }

def c1poses : PublicPosesMsg :=
  { robot_id := 1, cluster_id := 5, destination_robot_id := 0,
    iteration_number := 3, is_auxiliary := false, pose_ids := [0] }

def c1weights : WeightsMsg :=
  { robot_id := 1, cluster_id := 5, destination_robot_id := 0, entries := [] }

theorem cluster_admission_witness :
    commandCallback idOracle .unavailable baseAgent c1cmd = (baseAgent, []) ∧
    publicPosesCallback baseAgent c1poses = (baseAgent, []) ∧
    measurementWeightsCallback baseAgent c1weights = (baseAgent, []) :=
  cluster_admission idOracle .unavailable baseAgent c1cmd c1poses c1weights
    (by decide) (by decide) (by decide)

def c1status : StatusMsg :=
  { robot_id := 1, cluster_id := 1, state := .INITIALIZED, stamp := 0 }

/-- C1 counterexample: a Status message from another cluster is NOT a
no-op for the receiver. Here the synchronous leader records the message,
deactivates the sender that joined another cluster, and publishes the
active set - refuting the claim for Status messages. -/
theorem status_cluster_mismatch_counterexample :
    c1status.cluster_id ≠ baseAgent.clusterID ∧
    (statusCallback baseAgent c1status).1.activeRobots 1 = false ∧
    baseAgent.activeRobots 1 = true ∧
    (statusCallback baseAgent c1status).1.teamStatusMsg 1 = some c1status ∧
    baseAgent.teamStatusMsg 1 = none ∧
    (statusCallback baseAgent c1status).2 ≠ [] := by
  decide

/-- Every setMeasurementWeight call recorded by the entry loop of the
weights callback comes from an entry of the message that mentions the
receiver exactly once and whose other endpoint is an active robot of
strictly LOWER id than the receiver. -/
theorem applyWeightEntries_calls (selfId : Nat) (active : Nat → Bool)
    (g : PoseGraphM) (es : List WeightEntry) (sR sP dR dP : Nat)
    (h : Ev.setWeightCall sR sP dR dP ∈ (applyWeightEntries selfId active g es).2.2) :
    ∃ e ∈ es, e.src_robot = sR ∧ e.src_pose = sP ∧ e.dst_robot = dR ∧ e.dst_pose = dP ∧
      ((sR = selfId ∧ dR ≠ selfId ∧ dR < selfId ∧ active dR = true) ∨
       (dR = selfId ∧ sR ≠ selfId ∧ sR < selfId ∧ active sR = true)) := by
  induction es generalizing g with
  | nil => simp [applyWeightEntries] at h
  | cons e rest ih =>
    by_cases h1 : (e.src_robot == selfId && !(e.dst_robot == selfId)) = true
    · simp only [Bool.and_eq_true, beq_iff_eq, Bool.not_eq_true', beq_eq_false_iff_ne] at h1
      by_cases h2 : active e.dst_robot = true
      · by_cases h3 : e.dst_robot < selfId
        · simp [applyWeightEntries, h1.1, h1.2, h2, h3] at h
          rcases h with ⟨hs, hp, hd, hq⟩ | h
          · refine ⟨e, List.mem_cons_self e rest, ?_, ?_, ?_, ?_,
              Or.inl ⟨?_, ?_, ?_, ?_⟩⟩ <;> simp_all
          · obtain ⟨e1, hm, he⟩ := ih _ h
            exact ⟨e1, List.mem_cons_of_mem e hm, he⟩
        · simp [applyWeightEntries, h1.1, h1.2, h2, h3] at h
          obtain ⟨e1, hm, he⟩ := ih _ h
          exact ⟨e1, List.mem_cons_of_mem e hm, he⟩
      · simp only [Bool.not_eq_true] at h2
        simp [applyWeightEntries, h1.1, h1.2, h2] at h
        obtain ⟨e1, hm, he⟩ := ih _ h
        exact ⟨e1, List.mem_cons_of_mem e hm, he⟩
    · by_cases h1b : (e.dst_robot == selfId && !(e.src_robot == selfId)) = true
      · simp only [Bool.and_eq_true, beq_iff_eq, Bool.not_eq_true', beq_eq_false_iff_ne] at h1b
        by_cases h2 : active e.src_robot = true
        · by_cases h3 : e.src_robot < selfId
          · simp [applyWeightEntries, h1, h1b.1, h1b.2, h2, h3] at h
            rcases h with ⟨hs, hp, hd, hq⟩ | h
            · refine ⟨e, List.mem_cons_self e rest, ?_, ?_, ?_, ?_,
                Or.inr ⟨?_, ?_, ?_, ?_⟩⟩ <;> simp_all
            · obtain ⟨e1, hm, he⟩ := ih _ h
              exact ⟨e1, List.mem_cons_of_mem e hm, he⟩
          · simp [applyWeightEntries, h1, h1b.1, h1b.2, h2, h3] at h
            obtain ⟨e1, hm, he⟩ := ih _ h
            exact ⟨e1, List.mem_cons_of_mem e hm, he⟩
        · simp only [Bool.not_eq_true] at h2
          simp [applyWeightEntries, h1, h1b.1, h1b.2, h2] at h
          obtain ⟨e1, hm, he⟩ := ih _ h
          exact ⟨e1, List.mem_cons_of_mem e hm, he⟩
      · simp [applyWeightEntries, h1, h1b] at h
        obtain ⟨e1, hm, he⟩ := ih _ h
        exact ⟨e1, List.mem_cons_of_mem e hm, he⟩

/-- C8 (amended): each shared constraint's weight travels in exactly one
direction, but from the LOWER-id side to the HIGHER-id side: every message
produced by publishMeasurementWeights is destined to a robot of strictly
higher id than the sender; and the receiver invokes setMeasurementWeight
only for entries mentioning it exactly once whose other (sending) side is
an active neighbor of strictly lower id. -/
theorem weight_update_direction (a aR : Agent) (msg : WeightsMsg)
    (hdest : msg.destination_robot_id = aR.id)
    (hcl : msg.cluster_id = aR.clusterID) :
    (∀ m ∈ publishMeasurementWeights a, a.id < m.destination_robot_id ∧ m.robot_id = a.id) ∧
    (∀ sR sP dR dP, Ev.setWeightCall sR sP dR dP ∈ (measurementWeightsCallback aR msg).2 →
      ∃ e ∈ msg.entries,
        e.src_robot = sR ∧ e.src_pose = sP ∧ e.dst_robot = dR ∧ e.dst_pose = dP ∧
        ((sR = aR.id ∧ dR ≠ aR.id ∧ dR < aR.id ∧ isRobotActive aR dR = true) ∨
         (dR = aR.id ∧ sR ≠ aR.id ∧ sR < aR.id ∧ isRobotActive aR sR = true))) := by
  constructor
  · intro m hm
    simp only [publishMeasurementWeights, List.mem_filter, List.mem_map] at hm
    obtain ⟨⟨o, ho, rfl⟩, -⟩ := hm
    simp only [List.mem_filter, List.mem_range, decide_eq_true_eq] at ho
    exact ⟨ho.2, rfl⟩
  · intro sR sP dR dP h
    have hd : (msg.destination_robot_id == aR.id) = true := by simpa using hdest
    have hc2 : (msg.cluster_id == aR.clusterID) = true := by simpa using hcl
    simp only [measurementWeightsCallback, hd, hc2, Bool.not_true, Bool.false_eq_true,
      if_false, List.mem_append] at h
    rcases h with h | h
    · exact applyWeightEntries_calls aR.id _ _ _ sR sP dR dP h
    · exfalso
      rcases hb : (applyWeightEntries aR.id (fun r => isRobotActive aR r)
          aR.poseGraph msg.entries).2.1 with _ | _ <;> rw [hb] at h <;> simp at h

def c8agent : Agent :=
  { baseAgent with
    params := { baseParams with numRobots := 2 },
    poseGraph := { measurements := [{ r1 := 0, p1 := 0, r2 := 1, p2 := 0,
                                      weight := 1, fixedWeight := false }] } }

/-- C8 counterexample: robot 0 holds one shared constraint with robot 1;
publishMeasurementWeights on robot 0, the LOWER-id side, produces a
message destined to robot 1 - the weight is sent from the lower-id side
to the higher-id side, refuting the claimed direction. -/
theorem weight_update_direction_counterexample :
    ∃ m ∈ publishMeasurementWeights c8agent, c8agent.id < m.destination_robot_id := by
  decide

def c8recv : Agent :=
  { baseAgent with
    id := 1,
    clusterID := 1,
    params := { baseParams with numRobots := 2 } }

def c8msg : WeightsMsg :=
  { robot_id := 0, cluster_id := 1, destination_robot_id := 1,
    entries := [{ src_robot := 0, src_pose := 0, dst_robot := 1, dst_pose := 0,
                  weight := 1, fixed := false }] }

theorem weight_update_direction_witness :
    (∀ m ∈ publishMeasurementWeights c8agent,
      c8agent.id < m.destination_robot_id ∧ m.robot_id = c8agent.id) ∧
    (∀ sR sP dR dP, Ev.setWeightCall sR sP dR dP ∈ (measurementWeightsCallback c8recv c8msg).2 →
      ∃ e ∈ c8msg.entries,
        e.src_robot = sR ∧ e.src_pose = sP ∧ e.dst_robot = dR ∧ e.dst_pose = dP ∧
        ((sR = c8recv.id ∧ dR ≠ c8recv.id ∧ dR < c8recv.id ∧ isRobotActive c8recv dR = true) ∨
         (dR = c8recv.id ∧ sR ≠ c8recv.id ∧ sR < c8recv.id ∧ isRobotActive c8recv sR = true))) :=
  weight_update_direction c8agent c8recv c8msg rfl rfl

/-- Membership in a branching list distributes over the branch. -/
theorem mem_ite_list {c : Prop} [Decidable c] (x : Ev) (l1 l2 : List Ev) :
    (x ∈ if c then l1 else l2) ↔ (if c then x ∈ l1 else x ∈ l2) := by
  split <;> rfl

theorem resetUpd_not_in_anchorEvs (O : Oracle) (x : Agent) :
    Ev.resetUpdTimer ∉ publishAnchorEvs O x := by
  unfold publishAnchorEvs
  split_ifs <;> simp

theorem resetUpd_not_in_updateTo (x : Agent) (r : Nat) :
    Ev.resetUpdTimer ∉ publishUpdateCommandTo x r := by
  unfold publishUpdateCommandTo
  split_ifs <;> simp

theorem resetCmd_not_in_anchorEvs (O : Oracle) (x : Agent) :
    Ev.resetCmdTimer ∉ publishAnchorEvs O x := by
  unfold publishAnchorEvs
  split_ifs <;> simp

theorem resetCmd_not_in_updateTo (x : Agent) (r : Nat) :
    Ev.resetCmdTimer ∉ publishUpdateCommandTo x r := by
  unfold publishUpdateCommandTo
  split_ifs <;> simp

/-- C7 (amended): the two timers are tied to different events. Every
effective command - any kind other than NOOP and SET_ACTIVE_ROBOTS, from
the receiver's own cluster - rewrites the command-silence timer and never
the hard-stall timer; the hard-stall timer is rewritten exactly when the
armed synchronous step runs and succeeds, and such a step never rewrites
the command-silence timer. -/
theorem timer_resets (O : Oracle) (svc : SvcResult) (a : Agent) (msg : CommandMsg)
    (hcl : msg.cluster_id = a.clusterID)
    (heff : msg.command ≠ .NOOP ∧ msg.command ≠ .SET_ACTIVE_ROBOTS) :
    (Ev.resetCmdTimer ∈ (commandCallback O svc a msg).2 ∧
     Ev.resetUpdTimer ∉ (commandCallback O svc a msg).2) ∧
    (∀ O1 a1, Ev.resetCmdTimer ∉ (runOnceSynchronous O1 a1).2) ∧
    (∀ O1 a1, a1.mSynchronousOptimizationRequested = true → syncReady a1 = true →
      ((O1.iterate true a1.core).2 = true ↔
        Ev.resetUpdTimer ∈ (runOnceSynchronous O1 a1).2)) := by
  have hcl2 : (msg.cluster_id == a.clusterID) = true := by simpa using hcl
  refine ⟨⟨?_, ?_⟩, ?_, ?_⟩
  · unfold commandCallback
    simp only [hcl2, Bool.not_true, Bool.false_eq_true, if_false]
    cases hc : msg.command
    all_goals first
      | exact absurd hc heff.1
      | exact absurd hc heff.2
      | (dsimp only; split_ifs <;> simp)
      | simp
  · unfold commandCallback
    simp only [hcl2, Bool.not_true, Bool.false_eq_true, if_false]
    cases hc : msg.command
    all_goals first
      | (dsimp only
         split_ifs <;>
           simp [List.mem_append, mem_ite_list, resetUpd_not_in_anchorEvs,
             resetUpd_not_in_updateTo, publishInitializeCommand])
      | simp
  · intro O1 a1
    unfold runOnceSynchronous
    try dsimp only
    split
    · simp
    · split
      · simp
      · simp [List.mem_append, mem_ite_list, resetCmd_not_in_anchorEvs,
          resetCmd_not_in_updateTo]
  · intro O1 a1 hreq hrdy
    unfold runOnceSynchronous
    simp only [hreq, hrdy, Bool.not_true, Bool.false_eq_true, if_false]
    try dsimp only
    constructor
    · intro hs
      simp [hs]
    · intro hmem
      by_contra hns
      simp only [Bool.not_eq_true] at hns
      rw [hns] at hmem
      simp [List.mem_append, mem_ite_list, resetUpd_not_in_anchorEvs,
        resetUpd_not_in_updateTo] at hmem

def c7agent : Agent :=
  { baseAgent with
    id := 1,
    mSynchronousOptimizationRequested := true }

/-- C7 counterexample: a successful armed synchronous solver step resets
the hard-stall timer but NOT the command-silence timer, refuting the
claim that both timers are reset on every successful local step. -/
theorem timer_resets_counterexample :
    Ev.resetUpdTimer ∈ (runOnceSynchronous idOracle c7agent).2 ∧
    Ev.resetCmdTimer ∉ (runOnceSynchronous idOracle c7agent).2 := by
  decide

theorem timer_resets_witness :
    (Ev.resetCmdTimer ∈ (commandCallback idOracle .unavailable baseAgent updateMsg2).2 ∧
     Ev.resetUpdTimer ∉ (commandCallback idOracle .unavailable baseAgent updateMsg2).2) ∧
    (∀ O1 a1, Ev.resetCmdTimer ∉ (runOnceSynchronous O1 a1).2) ∧
    (∀ O1 a1, a1.mSynchronousOptimizationRequested = true → syncReady a1 = true →
      ((O1.iterate true a1.core).2 = true ↔
        Ev.resetUpdTimer ∈ (runOnceSynchronous O1 a1).2)) :=
  timer_resets idOracle .unavailable baseAgent updateMsg2 rfl ⟨by decide, by decide⟩

/-- C5 (amended): when the leader processes INITIALIZE: if not all active
robots report INITIALIZED and the retry budget is left, it re-issues
INITIALIZE (by arming the deferred publish request) and starts or
terminates nothing; otherwise, if at least 2 robots are INITIALIZED, it
restricts the active set to the active, initialized and connected robots,
rebroadcasts it, and issues UPDATE naming itself PROVIDED it itself
survives that pruning (a leader pruned for not being initialized issues no
UPDATE - see the counterexample); otherwise it emits HARD_TERMINATE. -/
theorem init_command (O : Oracle) (svc : SvcResult) (a : Agent) (msg : CommandMsg)
    (hcmd : msg.command = .INITIALIZE)
    (hcl : msg.cluster_id = a.clusterID)
    (hpub : msg.publishing_robot = a.clusterID)
    (hld : isLeader a = true)
    (hsync : a.params.asynchronous = false)
    (hidr : a.id < a.params.numRobots) :
    ((initScan a).1 = false ∧ a.mInitStepsDone ≤ a.params.maxDistributedInitSteps →
      (commandCallback O svc a msg).1 = { a with mPublishInitializeCommandRequested := true } ∧
      (∀ c, Ev.pubCommand c ∈ (commandCallback O svc a msg).2 →
        c.command = .SET_ACTIVE_ROBOTS)) ∧
    (((initScan a).1 = true ∨ a.params.maxDistributedInitSteps < a.mInitStepsDone) →
      (1 < (initScan a).2 →
        (∀ r, r < a.params.numRobots →
          (commandCallback O svc a msg).1.activeRobots r =
            (isRobotActive a r && isRobotInitialized a r && isRobotConnected a r)) ∧
        Ev.pubCommand (activeRobotsCommandMsg (commandCallback O svc a msg).1) ∈
          (commandCallback O svc a msg).2 ∧
        ((isRobotActive a a.id && isRobotInitialized a a.id && isRobotConnected a a.id) = true →
          Ev.pubCommand (updateCommandMsg (commandCallback O svc a msg).1 a.id) ∈
            (commandCallback O svc a msg).2)) ∧
      ((initScan a).2 ≤ 1 →
        (commandCallback O svc a msg).1 = a ∧
        Ev.pubCommand (hardTerminateCommandMsg a) ∈ (commandCallback O svc a msg).2 ∧
        (∀ c, Ev.pubCommand c ∈ (commandCallback O svc a msg).2 →
          c.command ≠ .UPDATE))) := by
  have hcl2 : (msg.cluster_id == a.clusterID) = true := by simpa using hcl
  have hpub2 : (msg.publishing_robot == a.clusterID) = true := by simpa using hpub
  constructor
  · rintro ⟨h1, h2⟩
    constructor
    · simp [commandCallback, hcmd, hcl2, hpub2, hld, h1, h2]
    · intro c hcmem
      simp [commandCallback, hcmd, hcl2, hpub2, hld, h1, h2, mem_ite_list] at hcmem
      subst hcmem
      simp [activeRobotsCommandMsg]
  · intro hfull
    have hcond : (!(initScan a).1 &&
        decide (a.mInitStepsDone ≤ a.params.maxDistributedInitSteps)) = false := by
      rcases hfull with h | h
      · simp [h]
      · simp [Nat.not_le.mpr h]
    constructor
    · intro hmany
      refine ⟨?_, ?_, ?_⟩
      · intro r hr
        simp [commandCallback, hcmd, hcl2, hpub2, hld, hcond, hmany, hr]
      · simp [commandCallback, hcmd, hcl2, hpub2, hld, hcond, hmany]
      · intro hself
        have hself2 : (a.activeRobots a.id && isRobotInitialized a a.id &&
            isRobotConnected a a.id) = true := hself
        simp [commandCallback, hcmd, hcl2, hpub2, hld, hcond, hmany,
          publishUpdateCommandTo, isRobotActive, hsync, hidr, hself2]
    · intro hfew
      have hmany2 : ¬(1 < (initScan a).2) := by omega
      refine ⟨?_, ?_, ?_⟩
      · simp [commandCallback, hcmd, hcl2, hpub2, hld, hcond, hmany2]
      · simp [commandCallback, hcmd, hcl2, hpub2, hld, hcond, hmany2]
      · intro c hcmem
        simp [commandCallback, hcmd, hcl2, hpub2, hld, hcond, hmany2, mem_ite_list] at hcmem
        rcases hcmem with h | h <;>
          simp [h, activeRobotsCommandMsg, hardTerminateCommandMsg]

/-- A leader that is itself stuck before global initialization while two
other robots are initialized and the retry budget is exhausted. -/
def c5agent : Agent :=
  { baseAgent with
    core := { state := .WAIT_FOR_INITIALIZATION, iterationNumber := 0 },
    mInitStepsDone := 5,
    teamStatus := fun r =>
      if r == 0 then some { agentID := 0, state := .WAIT_FOR_INITIALIZATION }
      else some { agentID := r, state := .INITIALIZED } }

def c5msg : CommandMsg :=
  { command := .INITIALIZE, cluster_id := 0, publishing_robot := 0,
    executing_robot := 0, executing_iteration := 0, active_robots := [] }

/-- C5 counterexample: the scan is not all-initialized, the budget is
exhausted, two robots are initialized, so the claimed branch applies; the
leader prunes and rebroadcasts the active set, but - having pruned itself,
not being initialized - issues NO UPDATE, refuting the claimed
unconditional round kickoff. -/
theorem init_command_counterexample :
    (initScan c5agent).1 = false ∧
    c5agent.params.maxDistributedInitSteps < c5agent.mInitStepsDone ∧
    1 < (initScan c5agent).2 ∧
    isLeader c5agent = true ∧
    countCmd (commandCallback idOracle .unavailable c5agent c5msg).2 .UPDATE = 0 ∧
    countCmd (commandCallback idOracle .unavailable c5agent c5msg).2 .SET_ACTIVE_ROBOTS ≠ 0 := by
  decide

theorem init_command_witness :
    ((initScan c5agent).1 = false ∧
      c5agent.mInitStepsDone ≤ c5agent.params.maxDistributedInitSteps →
      (commandCallback idOracle .unavailable c5agent c5msg).1 =
        { c5agent with mPublishInitializeCommandRequested := true } ∧
      (∀ c, Ev.pubCommand c ∈ (commandCallback idOracle .unavailable c5agent c5msg).2 →
        c.command = .SET_ACTIVE_ROBOTS)) ∧
    (((initScan c5agent).1 = true ∨
        c5agent.params.maxDistributedInitSteps < c5agent.mInitStepsDone) →
      (1 < (initScan c5agent).2 →
        (∀ r, r < c5agent.params.numRobots →
          (commandCallback idOracle .unavailable c5agent c5msg).1.activeRobots r =
            (isRobotActive c5agent r && isRobotInitialized c5agent r &&
              isRobotConnected c5agent r)) ∧
        Ev.pubCommand (activeRobotsCommandMsg
            (commandCallback idOracle .unavailable c5agent c5msg).1) ∈
          (commandCallback idOracle .unavailable c5agent c5msg).2 ∧
        ((isRobotActive c5agent c5agent.id && isRobotInitialized c5agent c5agent.id &&
            isRobotConnected c5agent c5agent.id) = true →
          Ev.pubCommand (updateCommandMsg
              (commandCallback idOracle .unavailable c5agent c5msg).1 c5agent.id) ∈
            (commandCallback idOracle .unavailable c5agent c5msg).2)) ∧
      ((initScan c5agent).2 ≤ 1 →
        (commandCallback idOracle .unavailable c5agent c5msg).1 = c5agent ∧
        Ev.pubCommand (hardTerminateCommandMsg c5agent) ∈
          (commandCallback idOracle .unavailable c5agent c5msg).2 ∧
        (∀ c, Ev.pubCommand c ∈ (commandCallback idOracle .unavailable c5agent c5msg).2 →
          c.command ≠ .UPDATE))) :=
  init_command idOracle .unavailable c5agent c5msg rfl rfl rfl rfl rfl (by decide)

/-- checkDisconnectedRobot only rewrites the active set. -/
theorem checkDisconnectedRobot_core (a : Agent) :
    (checkDisconnectedRobot a).1.core = a.core := rfl

theorem checkDisconnectedRobot_isLeader (a : Agent) :
    isLeader (checkDisconnectedRobot a).1 = isLeader a := rfl

theorem checkDisconnectedRobot_lastUpd (a : Agent) :
    (checkDisconnectedRobot a).1.mLastUpdateTimeHasValue = a.mLastUpdateTimeHasValue := rfl

/-- An active robot that lost connectivity is deactivated by
checkDisconnectedRobot. -/
theorem checkDisconnectedRobot_deactivates (a : Agent) (r : Nat)
    (hr : r < a.params.numRobots) (hact : a.activeRobots r = true)
    (hconn : isRobotConnected a r = false) :
    (checkDisconnectedRobot a).1.activeRobots r = false := by
  simp [checkDisconnectedRobot, hr, hact, hconn]

/-- reset() puts the agent back into WAIT_FOR_DATA. -/
theorem reset_state (a : Agent) : (reset a).core.state = .WAIT_FOR_DATA := rfl

/-- C6 (amended): on command-channel silence beyond the threshold while
INITIALIZED and mid-round (and no hard stall): the leader deactivates
every active-but-disconnected robot, rebroadcasts the active set exactly
when some robot was newly deactivated (the claim asserted the rebroadcast
unconditionally - see the counterexample), and emits exactly one RECOVER
and no HARD_TERMINATE when more than one robot stays active and recovery
is enabled, or one HARD_TERMINATE and no RECOVER when recovery is
disabled or at most one robot stays active; a non-leader cut off from its
believed leader resets locally publishing nothing, and a still-connected
non-leader only refreshes the silence timer. -/
theorem timeout_silence (a : Agent) (elapsedCmd idle : Int)
    (hsync : a.params.asynchronous = false)
    (hto : a.params.timeoutThreshold < elapsedCmd)
    (hst : a.core.state = .INITIALIZED)
    (hit : a.core.iterationNumber ≠ 0)
    (hidle : ¬(3 * a.params.timeoutThreshold < idle)) :
    (isLeader a = true →
      (∀ r, r < a.params.numRobots → a.activeRobots r = true →
        isRobotConnected a r = false →
        (checkTimeout a elapsedCmd idle).1.activeRobots r = false) ∧
      ((checkDisconnectedRobot a).2 = true ↔
        Ev.pubCommand (activeRobotsCommandMsg (checkDisconnectedRobot a).1) ∈
          (checkTimeout a elapsedCmd idle).2) ∧
      (1 < numActiveRobots (checkDisconnectedRobot a).1 → a.params.enableRecovery = true →
        countCmd (checkTimeout a elapsedCmd idle).2 .RECOVER = 1 ∧
        countCmd (checkTimeout a elapsedCmd idle).2 .HARD_TERMINATE = 0) ∧
      ((numActiveRobots (checkDisconnectedRobot a).1 ≤ 1 ∨
          a.params.enableRecovery = false) →
        countCmd (checkTimeout a elapsedCmd idle).2 .HARD_TERMINATE = 1 ∧
        countCmd (checkTimeout a elapsedCmd idle).2 .RECOVER = 0)) ∧
    (isLeader a = false →
      (isRobotConnected a a.clusterID = false →
        checkTimeout a elapsedCmd idle = (reset a, [Ev.resetCmdTimer])) ∧
      (isRobotConnected a a.clusterID = true →
        checkTimeout a elapsedCmd idle = (a, [Ev.resetCmdTimer]))) := by
  have hstb : (a.core.state == PGOAgentState.INITIALIZED) = true := by simp [hst]
  have hitb : (a.core.iterationNumber == 0) = false := by simpa using hit
  constructor
  · intro hld
    have heq : ∀ evsB : List Ev,
        countCmd (evsB ++ [Ev.resetCmdTimer]) .RECOVER = countCmd evsB .RECOVER ∧
        countCmd (evsB ++ [Ev.resetCmdTimer]) .HARD_TERMINATE =
          countCmd evsB .HARD_TERMINATE := by
      intro evsB
      simp [countCmd]
    refine ⟨?_, ?_, ?_, ?_⟩
    · intro r hr hact hconn
      have h1 : (checkTimeout a elapsedCmd idle).1 = (checkDisconnectedRobot a).1 := by
        by_cases hnum : 1 < numActiveRobots (checkDisconnectedRobot a).1 <;>
        cases hrec : a.params.enableRecovery <;>
        cases hdisc : (checkDisconnectedRobot a).2 <;>
          simp [checkTimeout, hsync, hto, hstb, hitb, hld, hidle, hnum, hrec, hdisc,
            checkDisconnectedRobot_core, checkDisconnectedRobot_isLeader]
      rw [h1]
      exact checkDisconnectedRobot_deactivates a r hr hact hconn
    · by_cases hnum : 1 < numActiveRobots (checkDisconnectedRobot a).1 <;>
      cases hrec : a.params.enableRecovery <;>
      cases hdisc : (checkDisconnectedRobot a).2 <;>
        simp [checkTimeout, hsync, hto, hstb, hitb, hld, hidle, hnum, hrec, hdisc,
          checkDisconnectedRobot_core, checkDisconnectedRobot_isLeader,
          activeRobotsCommandMsg, recoverCommandMsg, hardTerminateCommandMsg]
    · intro hnum hrec
      cases hdisc : (checkDisconnectedRobot a).2 <;>
        simp [checkTimeout, hsync, hto, hstb, hitb, hld, hidle, hnum, hrec, hdisc,
          checkDisconnectedRobot_core, checkDisconnectedRobot_isLeader, countCmd,
          activeRobotsCommandMsg, recoverCommandMsg]
    · intro hfew
      have hnum : ¬(1 < numActiveRobots (checkDisconnectedRobot a).1) ∨
          a.params.enableRecovery = false := by
        rcases hfew with h | h
        · exact Or.inl (by omega)
        · exact Or.inr h
      rcases hnum with hnum | hrecF
      · cases hrec : a.params.enableRecovery <;>
        cases hdisc : (checkDisconnectedRobot a).2 <;>
          simp [checkTimeout, hsync, hto, hstb, hitb, hld, hidle, hnum, hrec, hdisc,
            checkDisconnectedRobot_core, checkDisconnectedRobot_isLeader, countCmd,
            activeRobotsCommandMsg, hardTerminateCommandMsg]
      · by_cases hnum : 1 < numActiveRobots (checkDisconnectedRobot a).1 <;>
        cases hdisc : (checkDisconnectedRobot a).2 <;>
          simp [checkTimeout, hsync, hto, hstb, hitb, hld, hidle, hnum, hrecF, hdisc,
            checkDisconnectedRobot_core, checkDisconnectedRobot_isLeader, countCmd,
            activeRobotsCommandMsg, hardTerminateCommandMsg]
  · intro hld
    constructor
    · intro hconn
      simp [checkTimeout, hsync, hto, hstb, hitb, hld, hidle, hconn, reset_state]
    · intro hconn
      simp [checkTimeout, hsync, hto, hstb, hitb, hld, hidle, hconn]

/-- A concrete leader with robot 2 active but disconnected. -/
def c6agent : Agent :=
  { baseAgent with
    teamConnected := fun r => r != 2,
    mLastUpdateTimeHasValue := true }

theorem timeout_silence_witness :
    (isLeader c6agent = true →
      (∀ r, r < c6agent.params.numRobots → c6agent.activeRobots r = true →
        isRobotConnected c6agent r = false →
        (checkTimeout c6agent 100 0).1.activeRobots r = false) ∧
      ((checkDisconnectedRobot c6agent).2 = true ↔
        Ev.pubCommand (activeRobotsCommandMsg (checkDisconnectedRobot c6agent).1) ∈
          (checkTimeout c6agent 100 0).2) ∧
      (1 < numActiveRobots (checkDisconnectedRobot c6agent).1 →
        c6agent.params.enableRecovery = true →
        countCmd (checkTimeout c6agent 100 0).2 .RECOVER = 1 ∧
        countCmd (checkTimeout c6agent 100 0).2 .HARD_TERMINATE = 0) ∧
      ((numActiveRobots (checkDisconnectedRobot c6agent).1 ≤ 1 ∨
          c6agent.params.enableRecovery = false) →
        countCmd (checkTimeout c6agent 100 0).2 .HARD_TERMINATE = 1 ∧
        countCmd (checkTimeout c6agent 100 0).2 .RECOVER = 0)) ∧
    (isLeader c6agent = false →
      (isRobotConnected c6agent c6agent.clusterID = false →
        checkTimeout c6agent 100 0 = (reset c6agent, [Ev.resetCmdTimer])) ∧
      (isRobotConnected c6agent c6agent.clusterID = true →
        checkTimeout c6agent 100 0 = (c6agent, [Ev.resetCmdTimer]))) :=
  timeout_silence c6agent 100 0 rfl (by decide) rfl (by decide) (by decide)

/-- C6 counterexample: silence at a leader whose robots are all still
connected: exactly one RECOVER goes out but NO active-set rebroadcast,
refuting the claim that the leader rebroadcasts the active set whenever
the silence timeout fires. -/
theorem timeout_silence_counterexample :
    baseAgent.params.timeoutThreshold < (100 : Int) ∧
    baseAgent.core.state = .INITIALIZED ∧
    baseAgent.core.iterationNumber ≠ 0 ∧
    isLeader baseAgent = true ∧
    baseAgent.params.enableRecovery = true ∧
    1 < numActiveRobots baseAgent ∧
    countCmd (checkTimeout baseAgent 100 0).2 .RECOVER = 1 ∧
    countCmd (checkTimeout baseAgent 100 0).2 .SET_ACTIVE_ROBOTS = 0 := by
  decide

end DpgoRos
